import Mathlib

/-!
Verification of the goal-fetcher request layer.

Shallow embedding of `src/nhl-api-package/src/index.ts` (the `useNHLAPI`
hook: relay list, dispatch loop `fetchData`, `clearData`) and of the
endpoint catalog in `src/lib/nhl-endpoints.ts`.  The network is modelled
as an oracle mapping the full composed relay URL to the outcome of the
single HTTP GET the code issues against it.
-/

set_option maxRecDepth 4000

namespace NHL

/-- Decoded JSON payloads, as produced by `response.json()`.  The request
layer never inspects the payload (it is typed `any` in the source), it only
carries it. -/
inductive Json where
  | null
  | bool (b : Bool)
  | num (n : Int)
  | str (s : String)
  | arr (elems : List Json)
  | obj (fields : List (String × Json))

/-- Outcome of one `fetch` of one composed relay URL, classified exactly as
the dispatch loop classifies it: the `fetch` promise rejects
(`transportFault`), a response arrives with `response.ok` false
(`httpError`), the body fails to parse as JSON (`decodeFault`), or a 2xx
response with a JSON body (`success`). -/
inductive AttemptOutcome where
  | transportFault
  | httpError (status : Nat)
  | decodeFault
  | success (payload : Json)

def AttemptOutcome.isSuccess : AttemptOutcome → Bool
  | .success _ => true
  | _ => false

/-- The network as an oracle: what one GET of a given URL does.  Fixed for
the duration of one dispatch (the "no network state change" hypothesis of
the spec's idempotence property). -/
def Network : Type := String → AttemptOutcome

/-- `CORS_PROXIES` from index.ts lines 21-25: the ordered relay list. -/
def CORS_PROXIES : List String :=
  [ "https://api.allorigins.win/raw?url="
  , "https://corsproxy.io/?"
  , "https://cors-anywhere.herokuapp.com/" ]

/-- The two upstream host families, `NHL_APIS` in index.ts lines 28-31. -/
inductive ApiType where
  | web
  | stats
deriving DecidableEq

def ApiType.baseUrl : ApiType → String
  | .web => "https://api-web.nhle.com/v1"
  | .stats => "https://api.nhle.com/stats/rest/en"

/-- The key string of the host family (`'web'` / `'stats'`), used by the
source in the template `NHL ${apiType.toUpperCase()} API`. -/
def ApiType.key : ApiType → String
  | .web => "web"
  | .stats => "stats"

/-! ### `encodeURIComponent`

JavaScript's `encodeURIComponent` leaves the unreserved characters
`A-Z a-z 0-9 - _ . ! ~ * ' ( )` alone and replaces every other character
by the percent-encoding of its UTF-8 bytes, upper-case hex. -/

def isUnreservedChar (c : Char) : Bool :=
  c.isAlphanum || c = '-' || c = '_' || c = '.' || c = '!' || c = Char.ofNat 126 ||
    c = '*' || c = Char.ofNat 39 || c = '(' || c = ')'

/-- UTF-8 bytes of a character, as numbers. -/
def utf8Bytes (c : Char) : List Nat :=
  if c.toNat < 128 then [c.toNat]
  else if c.toNat < 2048 then [192 + c.toNat / 64, 128 + c.toNat % 64]
  else if c.toNat < 65536 then
    [224 + c.toNat / 4096, 128 + c.toNat / 64 % 64, 128 + c.toNat % 64]
  else
    [240 + c.toNat / 262144, 128 + c.toNat / 4096 % 64, 128 + c.toNat / 64 % 64,
      128 + c.toNat % 64]

/-- Upper-case hex digit. -/
def hexDigit (n : Nat) : Char :=
  if n < 10 then Char.ofNat (48 + n) else Char.ofNat (55 + n)

/-- Percent-encode a list of bytes: each byte becomes `%XY`. -/
def encBytes : List Nat → List Char
  | [] => []
  | b :: bs => '%' :: hexDigit (b / 16) :: hexDigit (b % 16) :: encBytes bs

def encodeChar (c : Char) : List Char :=
  if isUnreservedChar c then [c] else encBytes (utf8Bytes c)

def encList : List Char → List Char
  | [] => []
  | c :: cs => encodeChar c ++ encList cs

def encodeURIComponent (s : String) : String := ⟨encList s.data⟩

/-- Line 88 of index.ts: `const fullUrl = proxyUrl + encodeURIComponent(targetUrl)`.
This is applied to every relay in the list, uniformly. -/
def composeFullUrl (proxyUrl targetUrl : String) : String :=
  proxyUrl ++ encodeURIComponent targetUrl

/-- Line 122 of index.ts: the aggregated exhaustion message. -/
def errorMsgFor (targetUrl : String) : String :=
  "Failed to fetch NHL data from " ++ targetUrl

/-- The success envelope stored into state (index.ts lines 101-106). -/
structure NHLAPIResponse where
  source : String
  endpoint : String
  proxy : String
  data : Json

/-- The observable hook state: the three `useState` cells of `useNHLAPI`
(index.ts lines 73-75). -/
structure HookState where
  data : Option NHLAPIResponse
  loading : Bool
  error : Option String

/-- The spec's OperationState phases, read off the observable state the way
the presentation layer does (loading wins; otherwise a stored envelope
means settled success, a stored message settled error, nothing means idle). -/
inductive Phase where
  | idle
  | inFlight
  | settledSuccess
  | settledError
deriving DecidableEq

def phase (s : HookState) : Phase :=
  if s.loading then .inFlight
  else
    match s.data with
    | some _ => .settledSuccess
    | none =>
      match s.error with
      | some _ => .settledError
      | none => .idle

/-- Result of the dispatch loop: the state after settlement, the list of
relay indices attempted (in order), and the value `fetchData` settles with. -/
structure LoopResult where
  finalState : HookState
  attempts : List Nat
  result : Except String Json

/-- The `for` loop of index.ts lines 86-119.  `i` is the loop counter, the
list argument the remaining suffix of `CORS_PROXIES`.  A success stores the
envelope, stops, and resolves with the raw payload; any failure continues;
exhaustion stores the aggregated message and rejects with it
(lines 121-128). -/
def proxyLoop (net : Network) (apiKey targetUrl : String) (s : HookState) :
    Nat → List String → LoopResult
  | _, [] =>
    let msg := errorMsgFor targetUrl
    ⟨{ s with error := some msg, loading := false }, [], .error msg⟩
  | i, proxyUrl :: rest =>
    match net (composeFullUrl proxyUrl targetUrl) with
    | .success payload =>
      let result : NHLAPIResponse :=
        { source := "NHL " ++ apiKey.toUpper ++ " API"
        , endpoint := targetUrl
        , proxy := proxyUrl
        , data := payload }
      ⟨{ s with data := some result, loading := false }, [i], .ok payload⟩
    | _ =>
      let r := proxyLoop net apiKey targetUrl s (i + 1) rest
      ⟨r.finalState, i :: r.attempts, r.result⟩

/-- Full observable trace of one `fetchData` invocation: the state set
synchronously before the first attempt, the attempted relay indices, the
settled state, and the settlement value. -/
structure FetchTrace where
  preState : HookState
  attempts : List Nat
  finalState : HookState
  result : Except String Json

/-- `fetchData` (index.ts lines 77-129).  Lines 78-80 synchronously set
loading and clear data and error, whatever the prior state was; lines 82-83
resolve the target URL; the loop then runs over `CORS_PROXIES`. -/
def fetchData (net : Network) (endpoint : String)
    (apiType : ApiType := ApiType.web) (prior : HookState) : FetchTrace :=
  let s1 : HookState := { data := none, loading := true, error := none }
  let targetUrl := apiType.baseUrl ++ endpoint
  let r := proxyLoop net apiType.key targetUrl s1 0 CORS_PROXIES
  { preState := s1, attempts := r.attempts, finalState := r.finalState, result := r.result }

/-- `clearData` (index.ts lines 131-134): sets data and error to null.
It does not touch the loading flag. -/
def clearData (s : HookState) : HookState :=
  { s with data := none, error := none }

/-! ### Endpoint catalog (`src/lib/nhl-endpoints.ts`) -/

/-- The `NHL_TEAMS` keys: the recognized team codes. -/
inductive TeamCode where
  | COL
  | VGK
  | DAL
  | LAK
deriving DecidableEq

def TeamCode.code : TeamCode → String
  | .COL => "COL"
  | .VGK => "VGK"
  | .DAL => "DAL"
  | .LAK => "LAK"

/-- `NHL_WEB_ENDPOINTS.teamSchedule` (nhl-endpoints.ts lines 222-223),
season defaulting to the literal `'20252026'`. -/
def teamSchedule (teamCode : TeamCode) (season : String := "20252026") : String :=
  "/club-schedule-season/" ++ teamCode.code ++ "/" ++ season

/-- `NHLEndpoints.getTeamSchedule` (nhl-endpoints.ts lines 267-268),
delegating to `teamSchedule` with the same default. -/
def getTeamSchedule (teamCode : TeamCode) (season : String := "20252026") : String :=
  teamSchedule teamCode season

/-! ### Concrete network behaviors used as witnesses -/

/-- Every relay answers HTTP 503. -/
def netAllFail503 : Network := fun _ => AttemptOutcome.httpError 503

/-- The second relay (index 1) answers 200 with JSON `null`; every other
URL answers HTTP 503. -/
def netRelayOneSucceeds : Network := fun u =>
  if u = composeFullUrl "https://corsproxy.io/?"
        ("https://api-web.nhle.com/v1" ++ "/standings/now")
  then AttemptOutcome.success Json.null
  else AttemptOutcome.httpError 503

/-! ### Encoding-length lemmas

Used to show the aggregated error message cannot contain any composed
relay URL: every composed relay URL is at least as long as the whole
message, because the relay base is at least 22 characters and
percent-encoding the base URL of either host family adds at least 8
characters, while the message adds only a 30-character preamble. -/

theorem encBytes_length (l : List Nat) : (encBytes l).length = 3 * l.length := by
  induction l with
  | nil => rfl
  | cons b bs ih =>
    simp only [encBytes, List.length_cons, ih]
    omega

theorem utf8Bytes_length_pos (c : Char) : 0 < (utf8Bytes c).length := by
  unfold utf8Bytes
  split
  · simp
  · split
    · simp
    · split
      · simp
      · simp

theorem encodeChar_length_pos (c : Char) : 0 < (encodeChar c).length := by
  unfold encodeChar
  split
  · simp
  · rw [encBytes_length]
    have := utf8Bytes_length_pos c
    omega

theorem encList_append (l m : List Char) :
    encList (l ++ m) = encList l ++ encList m := by
  induction l with
  | nil => rfl
  | cons c cs ih => simp [encList, ih]

theorem encList_length_ge (l : List Char) : l.length ≤ (encList l).length := by
  induction l with
  | nil => simp [encList]
  | cons c cs ih =>
    have := encodeChar_length_pos c
    simp only [encList, List.length_append, List.length_cons]
    omega

theorem data_append (s t : String) : (s ++ t).data = s.data ++ t.data := by
  cases s
  cases t
  rfl

/-- Percent-encoding the base URL of either host family lengthens it by at
least 8 characters (the `:` and each `/` become three characters). -/
theorem baseUrl_enc_bonus (a : ApiType) :
    (ApiType.baseUrl a).data.length + 8 ≤ (encList (ApiType.baseUrl a).data).length := by
  cases a <;> decide

/-- Every relay base prefix is at least 22 characters long and starts
with `h`. -/
theorem proxy_data_facts (q : String) (hq : q ∈ CORS_PROXIES) :
    22 ≤ q.data.length ∧ q.data.head? = some 'h' := by
  simp only [CORS_PROXIES, List.mem_cons, List.not_mem_nil, or_false] at hq
  rcases hq with h | h | h <;> subst h <;> exact ⟨by decide, by decide⟩

theorem head?_append_left (l m : List Char) (c : Char) (h : l.head? = some c) :
    (l ++ m).head? = some c := by
  cases l with
  | nil => simp at h
  | cons a as => simpa using h

/-- No composed relay URL occurs inside the aggregated error message. -/
theorem relayUrl_not_in_errorMsg (a : ApiType) (endpoint q : String)
    (hq : q ∈ CORS_PROXIES) :
    ¬ ∃ u v : List Char,
        u ++ (composeFullUrl q (a.baseUrl ++ endpoint)).data ++ v
          = (errorMsgFor (a.baseUrl ++ endpoint)).data := by
  rintro ⟨u, v, huv⟩
  have hfull : (composeFullUrl q (a.baseUrl ++ endpoint)).data
      = q.data ++ (encList (ApiType.baseUrl a).data ++ encList endpoint.data) := by
    show (q ++ encodeURIComponent (a.baseUrl ++ endpoint)).data = _
    rw [data_append]
    congr 1
    show encList ((a.baseUrl ++ endpoint).data) = _
    rw [data_append, encList_append]
  have hmsg : (errorMsgFor (a.baseUrl ++ endpoint)).data
      = ("Failed to fetch NHL data from ").data
          ++ ((ApiType.baseUrl a).data ++ endpoint.data) := by
    show ("Failed to fetch NHL data from " ++ (a.baseUrl ++ endpoint)).data = _
    rw [data_append, data_append]
  rw [hfull, hmsg] at huv
  have hlen := congrArg List.length huv
  simp [List.length_append] at hlen
  have hq22 := (proxy_data_facts q hq).1
  have hbonus := baseUrl_enc_bonus a
  have hend := encList_length_ge endpoint.data
  have e1 : q.length = q.data.length := rfl
  have e2 : (ApiType.baseUrl a).length = (ApiType.baseUrl a).data.length := rfl
  have e3 : endpoint.length = endpoint.data.length := rfl
  have hu : u.length = 0 := by omega
  have hv : v.length = 0 := by omega
  rw [List.length_eq_zero] at hu hv
  subst hu hv
  simp only [List.nil_append, List.append_nil] at huv
  have hh : (q.data ++ (encList (ApiType.baseUrl a).data ++ encList endpoint.data)).head?
      = some 'h' := head?_append_left _ _ _ (proxy_data_facts q hq).2
  have hf : (("Failed to fetch NHL data from ").data
        ++ ((ApiType.baseUrl a).data ++ endpoint.data)).head? = some 'F' :=
    head?_append_left _ _ _ (by decide)
  rw [huv, hf] at hh
  simp at hh

/-! ### Dispatch-loop lemmas -/

/-- If every relay in the remaining list fails, the loop attempts every one
of them in order, stores the aggregated message, and rejects with it. -/
theorem proxyLoop_allFail (net : Network) (apiKey t : String) (s : HookState) :
    ∀ (ps : List String) (i : Nat),
      (∀ q ∈ ps, (net (composeFullUrl q t)).isSuccess = false) →
      proxyLoop net apiKey t s i ps =
        ⟨{ s with error := some (errorMsgFor t), loading := false },
          List.range' i ps.length, .error (errorMsgFor t)⟩ := by
  intro ps
  induction ps with
  | nil =>
    intro i _
    simp [proxyLoop]
  | cons q rest ih =>
    intro i h
    have hq : (net (composeFullUrl q t)).isSuccess = false := h q (by simp)
    have hrest : ∀ p ∈ rest, (net (composeFullUrl p t)).isSuccess = false :=
      fun p hp => h p (by simp [hp])
    cases hnet : net (composeFullUrl q t) with
    | success payload =>
      rw [hnet] at hq
      simp [AttemptOutcome.isSuccess] at hq
    | transportFault =>
      simp only [proxyLoop, hnet]
      rw [ih (i + 1) hrest]
      simp [List.range'_succ]
    | httpError status =>
      simp only [proxyLoop, hnet]
      rw [ih (i + 1) hrest]
      simp [List.range'_succ]
    | decodeFault =>
      simp only [proxyLoop, hnet]
      rw [ih (i + 1) hrest]
      simp [List.range'_succ]

/-- If every relay in the list head `ps1` fails and `proxyUrl` succeeds with
payload `p`, the loop attempts exactly the relays of `ps1` in order, then
`proxyUrl`, stores the envelope naming `proxyUrl`, stops, and resolves with
`p` — whatever `ps2` holds. -/
theorem proxyLoop_firstSuccess (net : Network) (apiKey t : String) (s : HookState) :
    ∀ (ps1 : List String) (proxyUrl : String) (ps2 : List String) (i : Nat) (p : Json),
      (∀ q ∈ ps1, (net (composeFullUrl q t)).isSuccess = false) →
      net (composeFullUrl proxyUrl t) = .success p →
      proxyLoop net apiKey t s i (ps1 ++ proxyUrl :: ps2) =
        ⟨{ s with
             data := some
               { source := "NHL " ++ apiKey.toUpper ++ " API"
               , endpoint := t, proxy := proxyUrl, data := p }
             loading := false },
          List.range' i (ps1.length + 1), .ok p⟩ := by
  intro ps1
  induction ps1 with
  | nil =>
    intro proxyUrl ps2 i p _ hsucc
    simp only [List.nil_append, proxyLoop, hsucc]
    simp [List.range'_succ]
  | cons q rest ih =>
    intro proxyUrl ps2 i p hfail hsucc
    have hq : (net (composeFullUrl q t)).isSuccess = false := hfail q (by simp)
    have hrest : ∀ x ∈ rest, (net (composeFullUrl x t)).isSuccess = false :=
      fun x hx => hfail x (by simp [hx])
    cases hnet : net (composeFullUrl q t) with
    | success payload =>
      rw [hnet] at hq
      simp [AttemptOutcome.isSuccess] at hq
    | transportFault =>
      simp only [List.cons_append, proxyLoop, hnet, List.append_eq]
      rw [ih proxyUrl ps2 (i + 1) p hrest hsucc]
      simp [List.range'_succ]
    | httpError status =>
      simp only [List.cons_append, proxyLoop, hnet, List.append_eq]
      rw [ih proxyUrl ps2 (i + 1) p hrest hsucc]
      simp [List.range'_succ]
    | decodeFault =>
      simp only [List.cons_append, proxyLoop, hnet, List.append_eq]
      rw [ih proxyUrl ps2 (i + 1) p hrest hsucc]
      simp [List.range'_succ]

/-- The loop always settles in one of exactly two shapes: an envelope was
stored and the call resolves, or the aggregated message was stored and the
call rejects with it. -/
theorem proxyLoop_settles (net : Network) (apiKey t : String) (s : HookState) :
    ∀ (ps : List String) (i : Nat),
      (∃ env p,
          (proxyLoop net apiKey t s i ps).finalState
              = { s with data := some env, loading := false }
          ∧ (proxyLoop net apiKey t s i ps).result = .ok p)
      ∨ ((proxyLoop net apiKey t s i ps).finalState
              = { s with error := some (errorMsgFor t), loading := false }
          ∧ (proxyLoop net apiKey t s i ps).result = .error (errorMsgFor t)) := by
  intro ps
  induction ps with
  | nil =>
    intro i
    right
    exact ⟨rfl, rfl⟩
  | cons q rest ih =>
    intro i
    cases hnet : net (composeFullUrl q t) with
    | success payload =>
      left
      exact ⟨{ source := "NHL " ++ apiKey.toUpper ++ " API"
             , endpoint := t, proxy := q, data := payload }, payload,
        by simp [proxyLoop, hnet], by simp [proxyLoop, hnet]⟩
    | transportFault =>
      have h1 : (proxyLoop net apiKey t s i (q :: rest)).finalState
          = (proxyLoop net apiKey t s (i + 1) rest).finalState := by
        simp [proxyLoop, hnet]
      have h2 : (proxyLoop net apiKey t s i (q :: rest)).result
          = (proxyLoop net apiKey t s (i + 1) rest).result := by
        simp [proxyLoop, hnet]
      rw [h1, h2]
      exact ih (i + 1)
    | httpError status =>
      have h1 : (proxyLoop net apiKey t s i (q :: rest)).finalState
          = (proxyLoop net apiKey t s (i + 1) rest).finalState := by
        simp [proxyLoop, hnet]
      have h2 : (proxyLoop net apiKey t s i (q :: rest)).result
          = (proxyLoop net apiKey t s (i + 1) rest).result := by
        simp [proxyLoop, hnet]
      rw [h1, h2]
      exact ih (i + 1)
    | decodeFault =>
      have h1 : (proxyLoop net apiKey t s i (q :: rest)).finalState
          = (proxyLoop net apiKey t s (i + 1) rest).finalState := by
        simp [proxyLoop, hnet]
      have h2 : (proxyLoop net apiKey t s i (q :: rest)).result
          = (proxyLoop net apiKey t s (i + 1) rest).result := by
        simp [proxyLoop, hnet]
      rw [h1, h2]
      exact ih (i + 1)

/-! ### Theorems -/

/-- Claim C1 (code bug witness).  The dispatch loop composes the relay URL
for the third relay (cors-anywhere, raw-path-append mode) the same way as
for the first two: it percent-encodes the target.  At the standings target
the composed URL carries `https%3A%2F%2F...`, not the raw target URL the
relay's composition mode requires. -/
theorem c1_third_relay_percent_encodes :
    CORS_PROXIES.get ⟨2, by decide⟩ = "https://cors-anywhere.herokuapp.com/"
    ∧ composeFullUrl "https://cors-anywhere.herokuapp.com/"
        "https://api-web.nhle.com/v1/standings/now"
      = "https://cors-anywhere.herokuapp.com/" ++
          "https%3A%2F%2Fapi-web.nhle.com%2Fv1%2Fstandings%2Fnow"
    ∧ composeFullUrl "https://cors-anywhere.herokuapp.com/"
        "https://api-web.nhle.com/v1/standings/now"
      ≠ "https://cors-anywhere.herokuapp.com/" ++
          "https://api-web.nhle.com/v1/standings/now" := by
  refine ⟨rfl, by decide, by decide⟩

/-- Claim C2.  If the relay list splits as `ps1 ++ proxyUrl :: ps2` with
every relay of `ps1` failing (any mode: transport fault, non-2xx, decode
fault) and `proxyUrl` — the relay at index `ps1.length` — returning 2xx
JSON `p`, then the dispatch attempts exactly the relay indices
`0 .. ps1.length` in ascending order (each exactly once, none after),
resolves with `p`, and stores an envelope recording the succeeding relay. -/
theorem c2_first_success_wins (net : Network) (endpoint : String) (a : ApiType)
    (prior : HookState) (ps1 : List String) (proxyUrl : String) (ps2 : List String)
    (p : Json)
    (hsplit : CORS_PROXIES = ps1 ++ proxyUrl :: ps2)
    (hfail : ∀ q ∈ ps1, (net (composeFullUrl q (a.baseUrl ++ endpoint))).isSuccess = false)
    (hsucc : net (composeFullUrl proxyUrl (a.baseUrl ++ endpoint)) = .success p) :
    (fetchData net endpoint a prior).attempts = List.range (ps1.length + 1)
    ∧ (fetchData net endpoint a prior).result = .ok p
    ∧ ∃ env, (fetchData net endpoint a prior).finalState.data = some env
        ∧ env.proxy = proxyUrl
        ∧ env.data = p
        ∧ env.endpoint = a.baseUrl ++ endpoint := by
  have hloop := proxyLoop_firstSuccess net a.key (a.baseUrl ++ endpoint)
    { data := none, loading := true, error := none } ps1 proxyUrl ps2 0 p hfail hsucc
  have h1 : (fetchData net endpoint a prior).attempts
      = (proxyLoop net a.key (a.baseUrl ++ endpoint)
          { data := none, loading := true, error := none } 0 CORS_PROXIES).attempts := rfl
  have h2 : (fetchData net endpoint a prior).result
      = (proxyLoop net a.key (a.baseUrl ++ endpoint)
          { data := none, loading := true, error := none } 0 CORS_PROXIES).result := rfl
  have h3 : (fetchData net endpoint a prior).finalState
      = (proxyLoop net a.key (a.baseUrl ++ endpoint)
          { data := none, loading := true, error := none } 0 CORS_PROXIES).finalState := rfl
  rw [hsplit] at h1 h2 h3
  rw [hloop] at h1 h2 h3
  refine ⟨?_, h2, ?_⟩
  · rw [h1, List.range_eq_range']
  · exact ⟨_, by rw [h3], rfl, rfl, rfl⟩

theorem c2_first_success_wins_witness :
    (fetchData netRelayOneSucceeds "/standings/now" ApiType.web
        { data := none, loading := false, error := none }).attempts = List.range 2
    ∧ (fetchData netRelayOneSucceeds "/standings/now" ApiType.web
        { data := none, loading := false, error := none }).result = .ok Json.null
    ∧ ∃ env, (fetchData netRelayOneSucceeds "/standings/now" ApiType.web
          { data := none, loading := false, error := none }).finalState.data = some env
        ∧ env.proxy = "https://corsproxy.io/?"
        ∧ env.data = Json.null
        ∧ env.endpoint = ApiType.web.baseUrl ++ "/standings/now" :=
  c2_first_success_wins netRelayOneSucceeds "/standings/now" ApiType.web
    { data := none, loading := false, error := none }
    ["https://api.allorigins.win/raw?url="] "https://corsproxy.io/?"
    ["https://cors-anywhere.herokuapp.com/"] Json.null rfl (by decide) rfl

/-- Claim C3 (counterexample).  With every relay failing, the invocation
rejects with the message "Failed to fetch NHL data from `<targetURL>`",
which is not the message "Failed to fetch data from `<targetURL>`" the
claim states. -/
theorem c3_counterexample_message_wording :
    (fetchData netAllFail503 "/standings/now" ApiType.web
        { data := none, loading := false, error := none }).result
      = .error "Failed to fetch NHL data from https://api-web.nhle.com/v1/standings/now"
    ∧ ("Failed to fetch NHL data from https://api-web.nhle.com/v1/standings/now" : String)
      ≠ "Failed to fetch data from " ++ "https://api-web.nhle.com/v1/standings/now" :=
  ⟨rfl, by decide⟩

/-- Claim C3 (amended).  When every relay fails, the invocation rejects
with an error whose message is exactly the string
"Failed to fetch NHL data from " followed by the resolved target URL, and
the state ends settled-error storing that exact same message. -/
theorem c3_amended_exhaustion_message (net : Network) (endpoint : String)
    (a : ApiType) (prior : HookState)
    (hfail : ∀ q ∈ CORS_PROXIES,
      (net (composeFullUrl q (a.baseUrl ++ endpoint))).isSuccess = false) :
    (fetchData net endpoint a prior).result
        = .error ("Failed to fetch NHL data from " ++ (a.baseUrl ++ endpoint))
    ∧ (fetchData net endpoint a prior).finalState.error
        = some ("Failed to fetch NHL data from " ++ (a.baseUrl ++ endpoint))
    ∧ phase (fetchData net endpoint a prior).finalState = Phase.settledError := by
  have hloop := proxyLoop_allFail net a.key (a.baseUrl ++ endpoint)
    { data := none, loading := true, error := none } CORS_PROXIES 0 hfail
  have h2 : (fetchData net endpoint a prior).result
      = (proxyLoop net a.key (a.baseUrl ++ endpoint)
          { data := none, loading := true, error := none } 0 CORS_PROXIES).result := rfl
  have h3 : (fetchData net endpoint a prior).finalState
      = (proxyLoop net a.key (a.baseUrl ++ endpoint)
          { data := none, loading := true, error := none } 0 CORS_PROXIES).finalState := rfl
  rw [hloop] at h2 h3
  refine ⟨h2, by rw [h3]; rfl, ?_⟩
  rw [h3]
  simp [phase]

theorem c3_amended_exhaustion_message_witness :
    (fetchData netAllFail503 "/standings/now" ApiType.web
        { data := none, loading := false, error := none }).result
      = .error ("Failed to fetch NHL data from "
          ++ (ApiType.web.baseUrl ++ "/standings/now"))
    ∧ (fetchData netAllFail503 "/standings/now" ApiType.web
        { data := none, loading := false, error := none }).finalState.error
      = some ("Failed to fetch NHL data from "
          ++ (ApiType.web.baseUrl ++ "/standings/now"))
    ∧ phase (fetchData netAllFail503 "/standings/now" ApiType.web
        { data := none, loading := false, error := none }).finalState
      = Phase.settledError :=
  c3_amended_exhaustion_message netAllFail503 "/standings/now" ApiType.web
    { data := none, loading := false, error := none } (by decide)

/-- Claim C4.  When every relay attempt fails — whatever the mix of
transport faults, non-2xx statuses and decode faults — exactly one
aggregated error is produced: the rejection value and the stored error
are one and the same message, that message contains the resolved target
URL verbatim and contains no composed relay URL, and the whole observable
trace is independent of which way the individual relays failed, so no
per-attempt fault (status code, relay identity, underlying exception)
reaches the caller. -/
theorem c4_single_opaque_error (net : Network) (endpoint : String) (a : ApiType)
    (prior : HookState)
    (hfail : ∀ q ∈ CORS_PROXIES,
      (net (composeFullUrl q (a.baseUrl ++ endpoint))).isSuccess = false) :
    ((fetchData net endpoint a prior).result
        = .error (errorMsgFor (a.baseUrl ++ endpoint))
      ∧ (fetchData net endpoint a prior).finalState.error
        = some (errorMsgFor (a.baseUrl ++ endpoint)))
    ∧ (∃ u v : List Char,
        u ++ (a.baseUrl ++ endpoint).data ++ v
          = (errorMsgFor (a.baseUrl ++ endpoint)).data)
    ∧ (∀ q ∈ CORS_PROXIES,
        ¬ ∃ u v : List Char,
          u ++ (composeFullUrl q (a.baseUrl ++ endpoint)).data ++ v
            = (errorMsgFor (a.baseUrl ++ endpoint)).data)
    ∧ (∀ net2 : Network,
        (∀ q ∈ CORS_PROXIES,
          (net2 (composeFullUrl q (a.baseUrl ++ endpoint))).isSuccess = false) →
        fetchData net2 endpoint a prior = fetchData net endpoint a prior) := by
  have hloop := proxyLoop_allFail net a.key (a.baseUrl ++ endpoint)
    { data := none, loading := true, error := none } CORS_PROXIES 0 hfail
  refine ⟨⟨?_, ?_⟩, ?_, ?_, ?_⟩
  · have h2 : (fetchData net endpoint a prior).result
        = (proxyLoop net a.key (a.baseUrl ++ endpoint)
            { data := none, loading := true, error := none } 0 CORS_PROXIES).result := rfl
    rw [hloop] at h2
    exact h2
  · have h3 : (fetchData net endpoint a prior).finalState
        = (proxyLoop net a.key (a.baseUrl ++ endpoint)
            { data := none, loading := true, error := none } 0 CORS_PROXIES).finalState := rfl
    rw [hloop] at h3
    rw [h3]
  · refine ⟨("Failed to fetch NHL data from ").data, [], ?_⟩
    rw [List.append_nil]
    exact (data_append "Failed to fetch NHL data from " (a.baseUrl ++ endpoint)).symm
  · exact fun q hq => relayUrl_not_in_errorMsg a endpoint q hq
  · intro net2 hfail2
    have hloop2 := proxyLoop_allFail net2 a.key (a.baseUrl ++ endpoint)
      { data := none, loading := true, error := none } CORS_PROXIES 0 hfail2
    have e1 : fetchData net endpoint a prior =
        ⟨{ data := none, loading := true, error := none },
          (proxyLoop net a.key (a.baseUrl ++ endpoint)
            { data := none, loading := true, error := none } 0 CORS_PROXIES).attempts,
          (proxyLoop net a.key (a.baseUrl ++ endpoint)
            { data := none, loading := true, error := none } 0 CORS_PROXIES).finalState,
          (proxyLoop net a.key (a.baseUrl ++ endpoint)
            { data := none, loading := true, error := none } 0 CORS_PROXIES).result⟩ := rfl
    have e2 : fetchData net2 endpoint a prior =
        ⟨{ data := none, loading := true, error := none },
          (proxyLoop net2 a.key (a.baseUrl ++ endpoint)
            { data := none, loading := true, error := none } 0 CORS_PROXIES).attempts,
          (proxyLoop net2 a.key (a.baseUrl ++ endpoint)
            { data := none, loading := true, error := none } 0 CORS_PROXIES).finalState,
          (proxyLoop net2 a.key (a.baseUrl ++ endpoint)
            { data := none, loading := true, error := none } 0 CORS_PROXIES).result⟩ := rfl
    rw [e1, e2, hloop, hloop2]

theorem c4_single_opaque_error_witness :
    (fetchData netAllFail503 "/standings/now" ApiType.web
        { data := none, loading := false, error := none }).result
      = .error (errorMsgFor (ApiType.web.baseUrl ++ "/standings/now"))
    ∧ (fetchData netAllFail503 "/standings/now" ApiType.web
        { data := none, loading := false, error := none }).finalState.error
      = some (errorMsgFor (ApiType.web.baseUrl ++ "/standings/now"))
    ∧ (¬ ∃ u v : List Char,
        u ++ (composeFullUrl "https://corsproxy.io/?"
                (ApiType.web.baseUrl ++ "/standings/now")).data ++ v
          = (errorMsgFor (ApiType.web.baseUrl ++ "/standings/now")).data)
    ∧ fetchData (fun _ => AttemptOutcome.transportFault) "/standings/now" ApiType.web
        { data := none, loading := false, error := none }
      = fetchData netAllFail503 "/standings/now" ApiType.web
        { data := none, loading := false, error := none } :=
  ⟨(c4_single_opaque_error netAllFail503 "/standings/now" ApiType.web
      { data := none, loading := false, error := none } (by decide)).1.1,
    (c4_single_opaque_error netAllFail503 "/standings/now" ApiType.web
      { data := none, loading := false, error := none } (by decide)).1.2,
    (c4_single_opaque_error netAllFail503 "/standings/now" ApiType.web
      { data := none, loading := false, error := none } (by decide)).2.2.1
      "https://corsproxy.io/?" (by decide),
    (c4_single_opaque_error netAllFail503 "/standings/now" ApiType.web
      { data := none, loading := false, error := none } (by decide)).2.2.2
      (fun _ => AttemptOutcome.transportFault) (by decide)⟩

/-- Claim C5.  Every invocation settles in exactly one of two shapes: a
stored envelope with no error message (settled success), or a stored
non-empty error message with no envelope (settled error).  Payload and
error are never both present and, once settled, never both absent. -/
theorem c5_settled_exactly_one (net : Network) (endpoint : String)
    (a : ApiType) (prior : HookState) :
    (phase (fetchData net endpoint a prior).finalState = Phase.settledSuccess
      ∧ (∃ env, (fetchData net endpoint a prior).finalState.data = some env)
      ∧ (fetchData net endpoint a prior).finalState.error = none)
    ∨ (phase (fetchData net endpoint a prior).finalState = Phase.settledError
      ∧ (fetchData net endpoint a prior).finalState.data = none
      ∧ ∃ m, (fetchData net endpoint a prior).finalState.error = some m
          ∧ 0 < m.length) := by
  have h3 : (fetchData net endpoint a prior).finalState
      = (proxyLoop net a.key (a.baseUrl ++ endpoint)
          { data := none, loading := true, error := none } 0 CORS_PROXIES).finalState := rfl
  rcases proxyLoop_settles net a.key (a.baseUrl ++ endpoint)
      { data := none, loading := true, error := none } CORS_PROXIES 0 with
    ⟨env, p, hfin, _⟩ | ⟨hfin, _⟩
  · left
    rw [h3, hfin]
    exact ⟨by simp [phase], ⟨env, rfl⟩, rfl⟩
  · right
    rw [h3, hfin]
    refine ⟨by simp [phase], rfl, errorMsgFor (a.baseUrl ++ endpoint), rfl, ?_⟩
    have h30 : ("Failed to fetch NHL data from ").length = 30 := rfl
    have := String.length_append "Failed to fetch NHL data from " (a.baseUrl ++ endpoint)
    simp only [errorMsgFor]
    omega

/-- Claim C6.  Whatever the prior state, `fetchData` synchronously moves the
state to in-flight with payload and error cleared before the first relay
attempt: the state the dispatch loop starts from is exactly
`⟨none, true, none⟩`. -/
theorem c6_invoke_clears_synchronously (net : Network) (endpoint : String)
    (a : ApiType) (prior : HookState) :
    (fetchData net endpoint a prior).preState
        = { data := none, loading := true, error := none }
    ∧ phase (fetchData net endpoint a prior).preState = Phase.inFlight :=
  ⟨rfl, rfl⟩

/-- Claim C7 (counterexample).  `clearData` does not reset the loading
flag, so called on an in-flight state it does not return the state to
idle: the phase stays in-flight. -/
theorem c7_counterexample_inflight_not_idle :
    phase (clearData { data := none, loading := true, error := none }) ≠ Phase.idle := by
  decide

/-- Claim C7 (amended).  `clearData` clears the stored payload and stored
error and leaves the loading flag untouched; hence it returns the
observable state to idle exactly when the controller is not in-flight. -/
theorem c7_amended_clear_when_not_inflight (s : HookState) (h : s.loading = false) :
    phase (clearData s) = Phase.idle
    ∧ (clearData s).data = none
    ∧ (clearData s).error = none
    ∧ (clearData s).loading = s.loading := by
  refine ⟨?_, rfl, rfl, rfl⟩
  simp [clearData, phase, h]

theorem c7_amended_witness :
    phase (clearData { data := none, loading := false, error := some "boom" }) = Phase.idle
    ∧ (clearData { data := none, loading := false, error := some "boom" }).data = none
    ∧ (clearData { data := none, loading := false, error := some "boom" }).error = none
    ∧ (clearData { data := none, loading := false, error := some "boom" }).loading = false :=
  c7_amended_clear_when_not_inflight
    { data := none, loading := false, error := some "boom" } rfl

/-- Claim C8.  `teamSchedule('COL', '20252026')` is the literal path
`/club-schedule-season/COL/20252026`, and for every team code, omitting the
season gives the same path as passing the fixed default `'20252026'`
explicitly (both for the raw template and the `getTeamSchedule` helper). -/
theorem c8_teamSchedule_default_season :
    teamSchedule TeamCode.COL "20252026" = "/club-schedule-season/COL/20252026"
    ∧ (∀ t : TeamCode, teamSchedule t = teamSchedule t "20252026")
    ∧ (∀ t : TeamCode, getTeamSchedule t = getTeamSchedule t "20252026")
    ∧ (∀ t : TeamCode, ∀ season : String, getTeamSchedule t season = teamSchedule t season) :=
  ⟨rfl, fun _ => rfl, fun _ => rfl, fun _ _ => rfl⟩

/-- Claim C9.  The dispatch outcome is a deterministic function of the
operation, host family and network behavior: it does not depend on the
prior controller state, so invoking twice under an unchanged network
(the second call starting from the first call's settled state) produces a
structurally identical trace, envelope and payload. -/
theorem c9_deterministic_dispatch (net : Network) (endpoint : String)
    (a : ApiType) (s1 s2 : HookState) :
    fetchData net endpoint a s1 = fetchData net endpoint a s2
    ∧ fetchData net endpoint a ((fetchData net endpoint a s1).finalState)
        = fetchData net endpoint a s1 :=
  ⟨rfl, rfl⟩

/-- Claim C10.  `clearData` only nulls the stored payload and the stored
error; every other part of the state — in particular the loading flag — is
unchanged, so clearing while an invocation is in flight leaves the state
in-flight. -/
theorem c10_clearData_frame (s : HookState) :
    clearData s = { s with data := none, error := none }
    ∧ (clearData s).loading = s.loading
    ∧ (s.loading = true → phase (clearData s) = Phase.inFlight) := by
  refine ⟨rfl, rfl, fun h => ?_⟩
  simp [clearData, phase, h]

theorem c10_clearData_frame_witness :
    clearData { data := none, loading := true, error := some "boom" }
        = { data := none, loading := true, error := none }
    ∧ (clearData { data := none, loading := true, error := some "boom" }).loading = true
    ∧ phase (clearData { data := none, loading := true, error := some "boom" })
        = Phase.inFlight :=
  ⟨(c10_clearData_frame _).1, (c10_clearData_frame _).2.1,
    (c10_clearData_frame _).2.2 rfl⟩

end NHL
